import Mathlib

/-!
Verification development for the standalone bootstrap orchestrator and the
layered configuration resolver of the `cmd` crate (files
`src/cmd/src/subcmd/standalone.rs`, `src/cmd/src/panic_hook.rs`,
`src/cmd/src/bin/engram.rs`).

The Rust code is shallowly embedded: pure option plumbing becomes Lean
functions, the fallible `load_options` becomes an `Except`-valued function,
and the effectful startup sequence `Standalone::execute` becomes a
deterministic runner over an oracle (`StageEnv`) that says which external
collaborator calls succeed, producing the trace of stages that were invoked
together with the first error.  Option types defined in sibling crates of the
repository (servers, frontend, datanode, ...) are not part of the excerpt;
they are modelled from the spec, with only the fields the excerpt touches made
explicit and the remaining contents kept as an abstract `raw`/`misc`
component.
-/

namespace Engram

/-- Modelled from the spec: `servers::Mode`, the deployment mode tag; the
excerpt uses only the `Standalone` variant, a distributed variant also
exists. -/
inductive Mode where
  | standalone
  | distributed
deriving DecidableEq, Repr

/-- Modelled from the spec: `servers::tls::TlsMode`, the TLS posture of a
wire-protocol listener; `disable` is the default posture. -/
inductive TlsMode where
  | disable
  | prefer
  | require
  | verifyCa
  | verifyFull
deriving DecidableEq, Repr

/-- Modelled from the spec: `servers::tls::TlsOption`, the TLS material of a
listener (mode plus certificate and key paths). -/
structure TlsOption where
  mode : TlsMode
  cert_path : String
  key_path : String
deriving DecidableEq, Repr

/-- Modelled from the spec: the default TLS posture of a listener that did not
request TLS (`TlsOption::default()`): TLS disabled, empty paths. -/
def TlsOption.default : TlsOption :=
  { mode := TlsMode.disable, cert_path := "", key_path := "" }

/-- Modelled from the spec: `TlsOption::new(mode, cert, key)` resolves the
optional command-line TLS settings into a listener TLS option, falling back to
the default posture for each absent piece. -/
def TlsOption.new (mode : Option TlsMode) (cert : Option String)
    (key : Option String) : TlsOption :=
  { mode := mode.getD TlsMode.disable,
    cert_path := cert.getD "",
    key_path := key.getD "" }

/-- Modelled from the spec: `servers::http::HttpOptions`; the excerpt touches
only the listen address. -/
structure HttpOptions where
  addr : String
deriving DecidableEq, Repr

/-- Modelled from the spec: the built-in default HTTP listener options (the
concrete address value is not given in the excerpt; a fixed representative
value is used). -/
def HttpOptions.default : HttpOptions := { addr := "127.0.0.1:4000" }

/-- Modelled from the spec: `frontend::service_config::GrpcOptions`; the
excerpt touches only the listen address. -/
structure GrpcOptions where
  addr : String
deriving DecidableEq, Repr

/-- Modelled from the spec: the built-in default frontend gRPC listener
options. -/
def GrpcOptions.default : GrpcOptions := { addr := "127.0.0.1:4001" }

/-- Modelled from the spec: `frontend::service_config::MysqlOptions`; the
excerpt touches the listen address and the TLS option. -/
structure MysqlOptions where
  addr : String
  tls : TlsOption
deriving DecidableEq, Repr

/-- Modelled from the spec: the built-in default MySQL-wire listener options
(default TLS posture). -/
def MysqlOptions.default : MysqlOptions :=
  { addr := "127.0.0.1:4002", tls := TlsOption.default }

/-- Modelled from the spec: `frontend::service_config::PostgresOptions`; the
excerpt touches the listen address and the TLS option. -/
structure PostgresOptions where
  addr : String
  tls : TlsOption
deriving DecidableEq, Repr

/-- Modelled from the spec: the built-in default Postgres-wire listener
options (default TLS posture). -/
def PostgresOptions.default : PostgresOptions :=
  { addr := "127.0.0.1:4003", tls := TlsOption.default }

/-- Modelled from the spec: `frontend::service_config::OpentsdbOptions`; the
excerpt touches only the listen address. -/
structure OpentsdbOptions where
  addr : String
deriving DecidableEq, Repr

/-- Modelled from the spec: the built-in default OpenTSDB listener options. -/
def OpentsdbOptions.default : OpentsdbOptions := { addr := "127.0.0.1:4242" }

/-- `frontend::service_config::InfluxdbOptions`: the excerpt constructs it
with the single field `enable`. -/
structure InfluxdbOptions where
  enable : Bool
deriving DecidableEq, Repr

/-- Modelled from the spec: the built-in default InfluxDB ingestion options. -/
def InfluxdbOptions.default : InfluxdbOptions := { enable := true }

/-- Modelled from the spec: `frontend::service_config::PromStoreOptions`, the
metrics-remote-write protocol options; internals are not in the excerpt. -/
structure PromStoreOptions where
  enable : Bool
deriving DecidableEq, Repr

/-- Modelled from the spec: the built-in default Prometheus remote store
options. -/
def PromStoreOptions.default : PromStoreOptions := { enable := true }

/-- Modelled from the spec: `common_config::WalConfig`, the write-ahead-log
policy section; its internal fields are not in the excerpt and are kept
abstract. -/
structure WalConfig where
  raw : String
deriving DecidableEq, Repr

/-- Modelled from the spec: the built-in default WAL policy. -/
def WalConfig.default : WalConfig := { raw := "wal-default" }

/-- Modelled from the spec: `datanode::config::StorageConfig`, the storage
location and per-engine settings; the excerpt reads `data_home`, the rest is
kept abstract. -/
structure StorageConfig where
  data_home : String
  raw : String
deriving DecidableEq, Repr

/-- Modelled from the spec: the built-in default storage section. -/
def StorageConfig.default : StorageConfig :=
  { data_home := "/tmp/engram/data", raw := "storage-default" }

/-- Modelled from the spec: `common_config::KvBackendConfig`, the
metadata-store backend descriptor; internals are not in the excerpt. -/
structure KvBackendConfig where
  raw : String
deriving DecidableEq, Repr

/-- Modelled from the spec: the built-in default metadata-store descriptor. -/
def KvBackendConfig.default : KvBackendConfig := { raw := "kv-default" }

/-- Modelled from the spec: `datanode::datanode::ProcedureConfig`, the
procedure-execution policy; internals are not in the excerpt. -/
structure ProcedureConfig where
  raw : String
deriving DecidableEq, Repr

/-- Modelled from the spec: the built-in default procedure policy. -/
def ProcedureConfig.default : ProcedureConfig := { raw := "procedure-default" }

/-- Modelled from the spec: `common_telemetry::logging::LoggingOptions`, the
logging policy; internals are not in the excerpt. -/
structure LoggingOptions where
  raw : String
deriving DecidableEq, Repr

/-- Modelled from the spec: the built-in default logging policy. -/
def LoggingOptions.default : LoggingOptions := { raw := "logging-default" }

/-- Modelled from the spec: `mito2::config::MitoConfig`, the default region
engine's settings; internals are not in the excerpt. -/
structure MitoConfig where
  raw : String
deriving DecidableEq, Repr

/-- Modelled from the spec: the built-in default Mito engine settings. -/
def MitoConfig.default : MitoConfig := { raw := "mito-default" }

/-- Modelled from the spec: `file_engine::config::EngineConfig`, the
file-backed engine's settings; internals are not in the excerpt. -/
structure FileEngineConfig where
  raw : String
deriving DecidableEq, Repr

/-- Modelled from the spec: the built-in default file engine settings. -/
def FileEngineConfig.default : FileEngineConfig := { raw := "file-default" }

/-- `datanode::config::RegionEngineConfig`: options for one store engine,
either the default (Mito) region engine or the file-backed engine. -/
inductive RegionEngineConfig where
  | mito (config : MitoConfig)
  | file (config : FileEngineConfig)
deriving DecidableEq, Repr

/-- Modelled from the spec: the fields of `datanode::config::DatanodeOptions`
that are not individually visible in the excerpt, kept abstract. -/
structure DatanodeMiscOptions where
  raw : String
deriving DecidableEq, Repr

/-- Modelled from the spec: default values of the remaining datanode
fields. -/
def DatanodeMiscOptions.default : DatanodeMiscOptions :=
  { raw := "datanode-misc-default" }

/-- `datanode::config::DatanodeOptions`: the storage-tier (datanode) options.
The excerpt touches `node_id`, `rpc_addr`, `wal` and `storage`; every other
field is collected in `misc`. -/
structure DatanodeOptions where
  node_id : Option Nat
  rpc_addr : String
  wal : WalConfig
  storage : StorageConfig
  misc : DatanodeMiscOptions
deriving DecidableEq, Repr

/-- Modelled from the spec: `DatanodeOptions::default()`; the spec fixes the
storage tier's reserved default RPC address (e.g. `127.0.0.1:3001`). -/
def DatanodeOptions.default : DatanodeOptions :=
  { node_id := none,
    rpc_addr := "127.0.0.1:3001",
    wal := WalConfig.default,
    storage := StorageConfig.default,
    misc := DatanodeMiscOptions.default }

/-- Modelled from the spec: the fields of `frontend::frontend::FrontendOptions`
not individually visible in the excerpt, kept abstract. -/
structure FrontendMiscOptions where
  raw : String
deriving DecidableEq, Repr

/-- Modelled from the spec: default values of the remaining frontend
fields. -/
def FrontendMiscOptions.default : FrontendMiscOptions :=
  { raw := "frontend-misc-default" }

/-- Modelled from the spec: the metadata-service client options; standalone
mode sets the field to `none`. -/
structure MetaClientOptions where
  raw : String
deriving DecidableEq, Repr

/-- `frontend::frontend::FrontendOptions`: the frontend-tier options.  The
excerpt populates mode, the protocol listener sections and `meta_client`;
every other field is collected in `misc` (whose default is used). -/
structure FrontendOptions where
  mode : Mode
  http : HttpOptions
  grpc : GrpcOptions
  mysql : MysqlOptions
  postgres : PostgresOptions
  opentsdb : OpentsdbOptions
  influxdb : InfluxdbOptions
  prom_store : PromStoreOptions
  meta_client : Option MetaClientOptions
  misc : FrontendMiscOptions
deriving DecidableEq, Repr

/-- `StandaloneOptions` (from `standalone.rs`): the fully layered
configuration for standalone mode. -/
structure StandaloneOptions where
  mode : Mode
  enable_telemetry : Bool
  http : HttpOptions
  grpc : GrpcOptions
  mysql : MysqlOptions
  postgres : PostgresOptions
  opentsdb : OpentsdbOptions
  influxdb : InfluxdbOptions
  prom_store : PromStoreOptions
  wal : WalConfig
  storage : StorageConfig
  metadata_store : KvBackendConfig
  procedure : ProcedureConfig
  logging : LoggingOptions
  user_provider : Option String
  region_engine : List RegionEngineConfig
deriving DecidableEq, Repr

/-- `impl Default for StandaloneOptions` (from `standalone.rs`): mode is
Standalone, telemetry on, every section at its own default, no user provider,
and the region-engine list holds the default Mito engine followed by the
default file engine. -/
def StandaloneOptions.default : StandaloneOptions :=
  { mode := Mode.standalone,
    enable_telemetry := true,
    http := HttpOptions.default,
    grpc := GrpcOptions.default,
    mysql := MysqlOptions.default,
    postgres := PostgresOptions.default,
    opentsdb := OpentsdbOptions.default,
    influxdb := InfluxdbOptions.default,
    prom_store := PromStoreOptions.default,
    wal := WalConfig.default,
    storage := StorageConfig.default,
    metadata_store := KvBackendConfig.default,
    procedure := ProcedureConfig.default,
    logging := LoggingOptions.default,
    user_provider := none,
    region_engine := [RegionEngineConfig.mito MitoConfig.default,
                      RegionEngineConfig.file FileEngineConfig.default] }

/-- Modelled from the spec: `FrontendOptions::default()`, used for the fields
that `StandaloneOptions::frontend_options` leaves to `..Default::default()`. -/
def FrontendOptions.default : FrontendOptions :=
  { mode := Mode.standalone,
    http := HttpOptions.default,
    grpc := GrpcOptions.default,
    mysql := MysqlOptions.default,
    postgres := PostgresOptions.default,
    opentsdb := OpentsdbOptions.default,
    influxdb := InfluxdbOptions.default,
    prom_store := PromStoreOptions.default,
    meta_client := none,
    misc := FrontendMiscOptions.default }

/-- `StandaloneOptions::frontend_options` (from `standalone.rs`): project the
merged standalone options onto the frontend-tier options; `meta_client` is
`none` and the remaining frontend fields take their defaults. -/
def StandaloneOptions.frontend_options (self : StandaloneOptions) :
    FrontendOptions :=
  { mode := self.mode,
    http := self.http,
    grpc := self.grpc,
    mysql := self.mysql,
    postgres := self.postgres,
    opentsdb := self.opentsdb,
    influxdb := self.influxdb,
    prom_store := self.prom_store,
    meta_client := none,
    misc := FrontendOptions.default.misc }

/-- `StandaloneOptions::datanode_options` (from `standalone.rs`): project the
merged standalone options onto the storage-tier options; `node_id` is
`Some(0)`, the WAL and storage sections are carried over, and the remaining
datanode fields take their defaults. -/
def StandaloneOptions.datanode_options (self : StandaloneOptions) :
    DatanodeOptions :=
  { node_id := some 0,
    rpc_addr := DatanodeOptions.default.rpc_addr,
    wal := self.wal,
    storage := self.storage,
    misc := DatanodeOptions.default.misc }

/-- The error type of the `cmd` crate (`crate::error`), restricted to the
variants the excerpt constructs via snafu contexts: `CreateDirSnafu`,
`IllegalConfigSnafu`, `InitMetadataSnafu`, `StartDatanodeSnafu`,
`StartFrontendSnafu`, `StartProcedureManagerSnafu`.  Payloads other than the
fields set at the construction sites are abstracted away. -/
inductive CmdError where
  | createDir (dir : String)
  | illegalConfig (msg : String)
  | initMetadata
  | startDatanode
  | startFrontend
  | startProcedureManager
deriving DecidableEq, Repr

/-- The error variant (constructor) of a `CmdError`, forgetting payloads. -/
inductive ErrorVariant where
  | createDir
  | illegalConfig
  | initMetadata
  | startDatanode
  | startFrontend
  | startProcedureManager
deriving DecidableEq, Repr

/-- Map an error to its variant. -/
def CmdError.variant : CmdError → ErrorVariant
  | CmdError.createDir _ => ErrorVariant.createDir
  | CmdError.illegalConfig _ => ErrorVariant.illegalConfig
  | CmdError.initMetadata => ErrorVariant.initMetadata
  | CmdError.startDatanode => ErrorVariant.startDatanode
  | CmdError.startFrontend => ErrorVariant.startFrontend
  | CmdError.startProcedureManager => ErrorVariant.startProcedureManager

/-- `crate::options::MixOptions`: the consolidated bundle handed to the
orchestrator. -/
structure MixOptions where
  procedure : ProcedureConfig
  metadata_store : KvBackendConfig
  data_home : String
  frontend : FrontendOptions
  datanode : DatanodeOptions
  logging : LoggingOptions
deriving DecidableEq, Repr

/-- Modelled from the spec: the options of the remote-attach (REPL)
subcommand, opaque here. -/
structure ReplOptions where
  raw : String
deriving DecidableEq, Repr

/-- `crate::options::Options`: the per-subcommand resolved options. -/
inductive Options where
  | standalone (opts : MixOptions)
  | cli (opts : ReplOptions)
deriving DecidableEq, Repr

/-- Modelled from the spec: one configuration source (a parsed config file, or
the environment-variable overlay under the fixed prefix) as a partial
assignment of `StandaloneOptions` fields.  Listener sections whose subfields
the excerpt reads are overlaid per leaf field; sections kept abstract are
overlaid wholesale.  `none` means the source does not mention the field. -/
structure StandaloneOverlay where
  mode : Option Mode := none
  enable_telemetry : Option Bool := none
  http_addr : Option String := none
  grpc_addr : Option String := none
  mysql_addr : Option String := none
  mysql_tls : Option TlsOption := none
  postgres_addr : Option String := none
  postgres_tls : Option TlsOption := none
  opentsdb_addr : Option String := none
  influxdb_enable : Option Bool := none
  prom_store : Option PromStoreOptions := none
  wal : Option WalConfig := none
  storage : Option StorageConfig := none
  metadata_store : Option KvBackendConfig := none
  procedure : Option ProcedureConfig := none
  logging : Option LoggingOptions := none
  user_provider : Option (Option String) := none
  region_engine : Option (List RegionEngineConfig) := none
deriving DecidableEq, Repr

/-- Modelled from the spec: apply one configuration source on top of a base
configuration; each field mentioned by the source overrides the base, each
absent field keeps the base value. -/
def StandaloneOverlay.apply (o : StandaloneOverlay) (s : StandaloneOptions) :
    StandaloneOptions :=
  { mode := o.mode.getD s.mode,
    enable_telemetry := o.enable_telemetry.getD s.enable_telemetry,
    http := { addr := o.http_addr.getD s.http.addr },
    grpc := { addr := o.grpc_addr.getD s.grpc.addr },
    mysql := { addr := o.mysql_addr.getD s.mysql.addr,
               tls := o.mysql_tls.getD s.mysql.tls },
    postgres := { addr := o.postgres_addr.getD s.postgres.addr,
                  tls := o.postgres_tls.getD s.postgres.tls },
    opentsdb := { addr := o.opentsdb_addr.getD s.opentsdb.addr },
    influxdb := { enable := o.influxdb_enable.getD s.influxdb.enable },
    prom_store := o.prom_store.getD s.prom_store,
    wal := o.wal.getD s.wal,
    storage := o.storage.getD s.storage,
    metadata_store := o.metadata_store.getD s.metadata_store,
    procedure := o.procedure.getD s.procedure,
    logging := o.logging.getD s.logging,
    user_provider := o.user_provider.getD s.user_provider,
    region_engine := o.region_engine.getD s.region_engine }

/-- Modelled from the spec: `Options::load_layered_options(config_file,
"ENGRAM_", None)` for the standalone subcommand.  Built-in defaults are the
base; values present in the config file override defaults; values present as
environment variables under the fixed prefix override the file.  Absence of a
source is not an error.  The file argument is the parsed file content when a
config file was given. -/
def Options.load_layered_options (file : Option StandaloneOverlay)
    (envVarTag : String) (env : StandaloneOverlay) : StandaloneOptions :=
  let _ := envVarTag
  env.apply ((file.getD {}).apply StandaloneOptions.default)

/-- The `Standalone` subcommand's parsed command line (the clap struct in
`standalone.rs`). -/
structure Standalone where
  http_addr : Option String := none
  rpc_addr : Option String := none
  mysql_addr : Option String := none
  postgres_addr : Option String := none
  opentsdb_addr : Option String := none
  influxdb_enable : Bool := false
  config_file : Option String := none
  enable_memory_catalog : Bool := false
  tls_mode : Option TlsMode := none
  tls_cert_path : Option String := none
  tls_key_path : Option String := none
  user_provider : Option String := none
deriving DecidableEq, Repr

/-- The part of `Standalone::load_options` before the RPC-conflict check: the
layered load, the unconditional `opts.mode = Mode::Standalone`, and the HTTP
address override. -/
def Standalone.preRpcOptions (c : Standalone) (file : Option StandaloneOverlay)
    (env : StandaloneOverlay) : StandaloneOptions :=
  let opts := Options.load_layered_options file "ENGRAM_" env
  let opts := { opts with mode := Mode.standalone }
  match c.http_addr with
  | some addr => { opts with http := { opts.http with addr := addr } }
  | none => opts

/-- The command-line overrides applied after the RPC block in
`Standalone::load_options`: MySQL address and TLS, Postgres address and TLS,
OpenTSDB address, and the InfluxDB enable toggle. -/
def Standalone.applyCliRest (c : Standalone) (tls_opts : TlsOption)
    (opts : StandaloneOptions) : StandaloneOptions :=
  let opts := match c.mysql_addr with
    | some addr => { opts with mysql := { opts.mysql with addr := addr, tls := tls_opts } }
    | none => opts
  let opts := match c.postgres_addr with
    | some addr => { opts with postgres := { opts.postgres with addr := addr, tls := tls_opts } }
    | none => opts
  let opts := match c.opentsdb_addr with
    | some addr => { opts with opentsdb := { opts.opentsdb with addr := addr } }
    | none => opts
  if c.influxdb_enable then { opts with influxdb := { enable := true } } else opts

/-- The message of the address-conflict error raised by
`Standalone::load_options`. -/
def rpcConflictMsg (datanode_grpc_addr : String) : String :=
  "gRPC listen address conflicts with datanode reserved gRPC addr: " ++
    datanode_grpc_addr

/-- The merged `StandaloneOptions` computed by `Standalone::load_options`
(everything up to, but not including, the projection into `MixOptions`):
layered load, forced standalone mode, and the command-line overrides, failing
with `IllegalConfig` when the frontend RPC address collides with the
datanode's reserved default RPC address. -/
def Standalone.mergedOptions (c : Standalone) (file : Option StandaloneOverlay)
    (env : StandaloneOverlay) : Except CmdError StandaloneOptions :=
  let tls_opts := TlsOption.new c.tls_mode c.tls_cert_path c.tls_key_path
  let opts := c.preRpcOptions file env
  match c.rpc_addr with
  | some addr =>
    let datanode_grpc_addr := DatanodeOptions.default.rpc_addr
    if addr = datanode_grpc_addr then
      Except.error (CmdError.illegalConfig (rpcConflictMsg datanode_grpc_addr))
    else
      Except.ok (c.applyCliRest tls_opts
        { opts with grpc := { opts.grpc with addr := addr } })
  | none => Except.ok (c.applyCliRest tls_opts opts)

/-- The projection at the end of `Standalone::load_options`: build the
`MixOptions` bundle from the merged standalone options. -/
def StandaloneOptions.toMixOptions (opts : StandaloneOptions) : MixOptions :=
  let metadata_store := opts.metadata_store
  let procedure := opts.procedure
  let frontend := opts.frontend_options
  let logging := opts.logging
  let datanode := opts.datanode_options
  { procedure := procedure,
    metadata_store := metadata_store,
    data_home := datanode.storage.data_home,
    frontend := frontend,
    datanode := datanode,
    logging := logging }

/-- `Standalone::load_options` (from `standalone.rs`): resolve the layered
configuration, apply command-line overrides with the RPC-conflict guard, and
project the result into the standalone `MixOptions` bundle. -/
def Standalone.load_options (c : Standalone) (file : Option StandaloneOverlay)
    (env : StandaloneOverlay) : Except CmdError Options :=
  (c.mergedOptions file env).map fun opts =>
    Options.standalone opts.toMixOptions

/-- The fallible steps of `Standalone::execute`, in source order: frontend
plugin setup, then the orchestrator stages DirectoryEnsure,
MetadataBootstrap, StorageBuild, CatalogInit, FrontendBuild, ServerWiring,
StorageStart, ProcedureStart, FrontendStart. -/
inductive Stage where
  | pluginSetup
  | directoryEnsure
  | metadataBootstrap
  | storageBuild
  | catalogInit
  | frontendBuild
  | serverWiring
  | storageStart
  | procedureStart
  | frontendStart
deriving DecidableEq, Repr

/-- The oracle for one run of `Standalone::execute`: which external
collaborator call succeeds.  The collaborators themselves (filesystem,
metadata backend, datanode builder, catalog manager, frontend) are opaque to
the orchestrator; the oracle records only the success or failure of each
awaited call, which is all the control flow of `execute` depends on. -/
structure StageEnv where
  pluginSetupOk : Bool
  createDirOk : Bool
  metadataBootstrapOk : Bool
  storageBuildOk : Bool
  catalogInitOk : Bool
  frontendBuildOk : Bool
  serverWiringOk : Bool
  storageStartOk : Bool
  procedureStartOk : Bool
  frontendStartOk : Bool
deriving DecidableEq, Repr

/-- Whether a given stage's collaborator call succeeds under the oracle. -/
def stageOk (env : StageEnv) : Stage → Bool
  | Stage.pluginSetup => env.pluginSetupOk
  | Stage.directoryEnsure => env.createDirOk
  | Stage.metadataBootstrap => env.metadataBootstrapOk
  | Stage.storageBuild => env.storageBuildOk
  | Stage.catalogInit => env.catalogInitOk
  | Stage.frontendBuild => env.frontendBuildOk
  | Stage.serverWiring => env.serverWiringOk
  | Stage.storageStart => env.storageStartOk
  | Stage.procedureStart => env.procedureStartOk
  | Stage.frontendStart => env.frontendStartOk

/-- The error each stage of `Standalone::execute` returns on failure, read
off the snafu context at each call site: plugin setup, metadata bootstrap,
frontend build, server wiring and frontend start use `StartFrontendSnafu`;
directory creation uses `CreateDirSnafu` carrying the offending path;
datanode build and start use `StartDatanodeSnafu`; catalog metadata init uses
`InitMetadataSnafu`; procedure-manager start uses
`StartProcedureManagerSnafu`. -/
def stageError (opts : MixOptions) : Stage → CmdError
  | Stage.pluginSetup => CmdError.startFrontend
  | Stage.directoryEnsure => CmdError.createDir opts.data_home
  | Stage.metadataBootstrap => CmdError.startFrontend
  | Stage.storageBuild => CmdError.startDatanode
  | Stage.catalogInit => CmdError.initMetadata
  | Stage.frontendBuild => CmdError.startFrontend
  | Stage.serverWiring => CmdError.startFrontend
  | Stage.storageStart => CmdError.startDatanode
  | Stage.procedureStart => CmdError.startProcedureManager
  | Stage.frontendStart => CmdError.startFrontend

/-- The order in which `Standalone::execute` issues its fallible calls. -/
def standaloneStageOrder : List Stage :=
  [Stage.pluginSetup, Stage.directoryEnsure, Stage.metadataBootstrap,
   Stage.storageBuild, Stage.catalogInit, Stage.frontendBuild,
   Stage.serverWiring, Stage.storageStart, Stage.procedureStart,
   Stage.frontendStart]

/-- Sequential `?`-propagation over a list of stages: each stage is invoked in
turn; on the first failing stage the runner stops and returns that stage's
error, never invoking a later stage.  Returns the trace of invoked stages and
the first error, if any. -/
def runPlan (f : Stage → Bool) (g : Stage → CmdError) :
    List Stage → List Stage × Option CmdError
  | [] => ([], none)
  | s :: rest =>
    if f s then
      (s :: (runPlan f g rest).1, (runPlan f g rest).2)
    else
      ([s], some (g s))

/-- `Standalone::execute` (from `standalone.rs`), embedded as the sequential
run of its fallible calls in source order under the collaborator oracle:
plugin setup, data-directory creation, metadata backend and procedure manager
bootstrap, datanode build, catalog manager init, frontend build, server
wiring, then datanode start, procedure-manager start and frontend start. -/
def Standalone.execute (opts : MixOptions) (env : StageEnv) :
    List Stage × Option CmdError :=
  runPlan (stageOk env) (stageError opts) standaloneStageOrder

/-- `Commands::execute` for the standalone subcommand (from `engram.rs`): the
`?` on `load_options` means the orchestrator runs only when option loading
succeeded; a load error is returned with no stage invoked. -/
def Commands.executeStandalone (c : Standalone)
    (file : Option StandaloneOverlay) (env : StandaloneOverlay)
    (stages : StageEnv) : List Stage × Option CmdError :=
  match Standalone.load_options c file env with
  | Except.error e => ([], some e)
  | Except.ok (Options.standalone m) => Standalone.execute m stages
  | Except.ok (Options.cli _) => ([], none)

/-- A panic's source location (`std::panic::Location`): file, line, column. -/
structure PanicLocation where
  file : String
  line : Nat
  column : Nat
deriving DecidableEq, Repr

/-- The panic payload the hook receives (`std::panic::PanicInfo`): the
human-readable message and, when available, the source location. -/
structure PanicInfo where
  message : String
  location : Option PanicLocation
deriving DecidableEq, Repr

/-- Observable actions of a panic-hook invocation: the structured error
record (with or without location fields), the metrics counter increment, and
the invocation of the handler that was installed before `set_panic_hook` ever
ran (the platform default handler), carrying the panic info it is given. -/
inductive HookEvent where
  | logWithLocation (message backtrace file : String) (line column : Nat)
  | logNoLocation (message backtrace : String)
  | counterIncrement (name : String)
  | defaultHandlerRun (info : PanicInfo)
deriving DecidableEq, Repr

/-- Whether an event is the structured diagnostic record. -/
def HookEvent.isLogRecord : HookEvent → Bool
  | HookEvent.logWithLocation _ _ _ _ _ => true
  | HookEvent.logNoLocation _ _ => true
  | _ => false

/-- The process-wide panic-hook state: the currently installed hook, as a
function from the panic info and the backtrace captured at invocation time to
the sequence of observable events. -/
structure HookState where
  installed : PanicInfo → String → List HookEvent

/-- The hook state before any `set_panic_hook` call: the platform default
handler, which just runs with the panic info it receives. -/
def initialHookState : HookState :=
  { installed := fun info _ => [HookEvent.defaultHandlerRun info] }

/-- The diagnostics the closure in `set_panic_hook` records before delegating:
one structured error record — with the source file, line and column when the
panic carries a location, without them otherwise — followed by the
`panic_counter` increment. -/
def hookDiagnostics (info : PanicInfo) (backtrace : String) : List HookEvent :=
  (match info.location with
   | some loc =>
     [HookEvent.logWithLocation info.message backtrace loc.file loc.line
        loc.column]
   | none => [HookEvent.logNoLocation info.message backtrace]) ++
  [HookEvent.counterIncrement "panic_counter"]

/-- `set_panic_hook` (from `panic_hook.rs`): take the currently installed
hook as `default_hook`, and install a closure that records the diagnostics
and then calls `default_hook` with the same panic info. -/
def set_panic_hook (st : HookState) : HookState :=
  let default_hook := st.installed
  { installed := fun info backtrace =>
      hookDiagnostics info backtrace ++ default_hook info backtrace }

/-! ### Helper lemmas about the sequential stage runner -/

theorem runPlan_take (f : Stage → Bool) (g : Stage → CmdError) :
    ∀ l : List Stage, ∃ k, (runPlan f g l).1 = l.take k := by
  intro l
  induction l with
  | nil => exact ⟨0, rfl⟩
  | cons s rest ih =>
    by_cases h : f s = true
    · obtain ⟨k, hk⟩ := ih
      exact ⟨k + 1, by simp [runPlan, h, hk]⟩
    · exact ⟨1, by simp [runPlan, h]⟩

theorem runPlan_none (f : Stage → Bool) (g : Stage → CmdError) :
    ∀ l : List Stage, (runPlan f g l).2 = none → (runPlan f g l).1 = l := by
  intro l
  induction l with
  | nil => intro _; rfl
  | cons s rest ih =>
    by_cases h : f s = true
    · intro hnone
      simp only [runPlan, h, if_true] at hnone ⊢
      exact congrArg (s :: ·) (ih hnone)
    · intro hnone
      simp [runPlan, h] at hnone

theorem runPlan_all_ok (f : Stage → Bool) (g : Stage → CmdError) :
    ∀ l : List Stage, (∀ s ∈ l, f s = true) → runPlan f g l = (l, none) := by
  intro l
  induction l with
  | nil => intro _; rfl
  | cons s rest ih =>
    intro h
    have hs : f s = true := h s (List.mem_cons_self s rest)
    have hrest := ih fun t ht => h t (List.mem_cons_of_mem s ht)
    simp [runPlan, hs, hrest]

theorem runPlan_some (f : Stage → Bool) (g : Stage → CmdError) :
    ∀ l : List Stage, ∀ e, (runPlan f g l).2 = some e →
      ∃ done s, (runPlan f g l).1 = done ++ [s] ∧ e = g s ∧ f s = false ∧
        ∀ t ∈ done, f t = true := by
  intro l
  induction l with
  | nil => intro e he; simp [runPlan] at he
  | cons s rest ih =>
    intro e he
    by_cases h : f s = true
    · simp only [runPlan, h, if_true] at he ⊢
      obtain ⟨done, s', htr, herr, hfail, hok⟩ := ih e he
      refine ⟨s :: done, s', ?_, herr, hfail, ?_⟩
      · simp [htr]
      · intro t ht
        rcases List.mem_cons.mp ht with rfl | ht
        · exact h
        · exact hok t ht
    · have h' : f s = false := by simpa using h
      refine ⟨[], s, ?_, ?_, h', by simp⟩
      · simp [runPlan, h']
      · simp [runPlan, h'] at he
        exact he.symm

/-! ### Claim theorems for the startup orchestrator -/

/-- C1: every run of `Standalone::execute` invokes its fallible steps in
exactly the order DirectoryEnsure, MetadataBootstrap, StorageBuild,
CatalogInit, FrontendBuild, ServerWiring, StorageStart, ProcedureStart,
FrontendStart (preceded only by the frontend plugin setup); the trace is
always an order-respecting initial segment of that sequence, a failing stage
is the last stage invoked (so no later stage runs), and the first error is
returned to the caller as the failing stage's own error. -/
theorem standalone_execute_ordering (opts : MixOptions) (env : StageEnv) :
    (∃ k, (Standalone.execute opts env).1 = standaloneStageOrder.take k) ∧
    ((Standalone.execute opts env).2 = none →
      (Standalone.execute opts env).1 = standaloneStageOrder) ∧
    ((∀ s ∈ standaloneStageOrder, stageOk env s = true) →
      Standalone.execute opts env = (standaloneStageOrder, none)) ∧
    (∀ e, (Standalone.execute opts env).2 = some e →
      ∃ done s, (Standalone.execute opts env).1 = done ++ [s] ∧
        e = stageError opts s ∧ stageOk env s = false ∧
        ∀ t ∈ done, stageOk env t = true) :=
  ⟨runPlan_take (stageOk env) (stageError opts) standaloneStageOrder,
   runPlan_none (stageOk env) (stageError opts) standaloneStageOrder,
   fun h => runPlan_all_ok (stageOk env) (stageError opts) standaloneStageOrder h,
   fun e he => runPlan_some (stageOk env) (stageError opts) standaloneStageOrder e he⟩

/-- The all-successful collaborator oracle. -/
def allOkEnv : StageEnv :=
  { pluginSetupOk := true, createDirOk := true, metadataBootstrapOk := true,
    storageBuildOk := true, catalogInitOk := true, frontendBuildOk := true,
    serverWiringOk := true, storageStartOk := true, procedureStartOk := true,
    frontendStartOk := true }

/-- Witness for C1: under the all-successful oracle the run invokes exactly
the full stage sequence in order and returns no error. -/
theorem standalone_execute_ordering_witness :
    Standalone.execute StandaloneOptions.default.toMixOptions allOkEnv =
      (standaloneStageOrder, none) :=
  (standalone_execute_ordering StandaloneOptions.default.toMixOptions
      allOkEnv).2.2.1 (by decide)

/-- C3 counterexample: it is not the case that every stage has its own
distinct error variant — FrontendBuild and ServerWiring are distinct stages
that fail with the same variant, and MetadataBootstrap fails with the
frontend-start variant, not a metadata-init one. -/
theorem stage_error_variants_not_distinct :
    (stageError StandaloneOptions.default.toMixOptions
        Stage.frontendBuild).variant =
      (stageError StandaloneOptions.default.toMixOptions
        Stage.serverWiring).variant ∧
    Stage.frontendBuild ≠ Stage.serverWiring ∧
    (stageError StandaloneOptions.default.toMixOptions
        Stage.metadataBootstrap).variant = ErrorVariant.startFrontend ∧
    ErrorVariant.startFrontend ≠ ErrorVariant.initMetadata := by
  refine ⟨rfl, ?_, rfl, ?_⟩ <;> decide

/-- C3 (amended): the stage-to-error-variant mapping of `Standalone::execute`
is: DirectoryEnsure → CreateDir (carrying the offending path), StorageBuild
and StorageStart → StartDatanode, CatalogInit → InitMetadata, ProcedureStart
→ StartProcedureManager, while plugin setup, MetadataBootstrap,
FrontendBuild, ServerWiring and FrontendStart all share the StartFrontend
variant; the variants are not pairwise distinct across stages. -/
theorem stage_error_variant_table (opts : MixOptions) :
    (stageError opts Stage.directoryEnsure).variant = ErrorVariant.createDir ∧
    stageError opts Stage.directoryEnsure = CmdError.createDir opts.data_home ∧
    (stageError opts Stage.metadataBootstrap).variant =
      ErrorVariant.startFrontend ∧
    (stageError opts Stage.storageBuild).variant =
      ErrorVariant.startDatanode ∧
    (stageError opts Stage.catalogInit).variant = ErrorVariant.initMetadata ∧
    (stageError opts Stage.frontendBuild).variant =
      ErrorVariant.startFrontend ∧
    (stageError opts Stage.serverWiring).variant =
      ErrorVariant.startFrontend ∧
    (stageError opts Stage.storageStart).variant =
      ErrorVariant.startDatanode ∧
    (stageError opts Stage.procedureStart).variant =
      ErrorVariant.startProcedureManager ∧
    (stageError opts Stage.frontendStart).variant =
      ErrorVariant.startFrontend ∧
    (stageError opts Stage.pluginSetup).variant =
      ErrorVariant.startFrontend :=
  ⟨rfl, rfl, rfl, rfl, rfl, rfl, rfl, rfl, rfl, rfl, rfl⟩

/-! ### Helper lemmas about the configuration resolver -/

theorem applyCliRest_frame (c : Standalone) (t : TlsOption)
    (s : StandaloneOptions) :
    (c.applyCliRest t s).mode = s.mode ∧
    (c.applyCliRest t s).enable_telemetry = s.enable_telemetry ∧
    (c.applyCliRest t s).http = s.http ∧
    (c.applyCliRest t s).grpc = s.grpc ∧
    (c.applyCliRest t s).prom_store = s.prom_store ∧
    (c.applyCliRest t s).wal = s.wal ∧
    (c.applyCliRest t s).storage = s.storage ∧
    (c.applyCliRest t s).metadata_store = s.metadata_store ∧
    (c.applyCliRest t s).procedure = s.procedure ∧
    (c.applyCliRest t s).logging = s.logging ∧
    (c.applyCliRest t s).user_provider = s.user_provider ∧
    (c.applyCliRest t s).region_engine = s.region_engine := by
  cases hm : c.mysql_addr <;> cases hp : c.postgres_addr <;>
    cases ho : c.opentsdb_addr <;> cases hi : c.influxdb_enable <;>
      simp [Standalone.applyCliRest, hm, hp, ho, hi]

theorem applyCliRest_mysql (c : Standalone) (t : TlsOption)
    (s : StandaloneOptions) :
    (c.applyCliRest t s).mysql =
      match c.mysql_addr with
      | some addr => { s.mysql with addr := addr, tls := t }
      | none => s.mysql := by
  cases hm : c.mysql_addr <;> cases hp : c.postgres_addr <;>
    cases ho : c.opentsdb_addr <;> cases hi : c.influxdb_enable <;>
      simp [Standalone.applyCliRest, hm, hp, ho, hi]

theorem applyCliRest_postgres (c : Standalone) (t : TlsOption)
    (s : StandaloneOptions) :
    (c.applyCliRest t s).postgres =
      match c.postgres_addr with
      | some addr => { s.postgres with addr := addr, tls := t }
      | none => s.postgres := by
  cases hm : c.mysql_addr <;> cases hp : c.postgres_addr <;>
    cases ho : c.opentsdb_addr <;> cases hi : c.influxdb_enable <;>
      simp [Standalone.applyCliRest, hm, hp, ho, hi]

theorem preRpcOptions_fields (c : Standalone) (file : Option StandaloneOverlay)
    (env : StandaloneOverlay) :
    (c.preRpcOptions file env).mode = Mode.standalone ∧
    (c.preRpcOptions file env).mysql =
      (Options.load_layered_options file "ENGRAM_" env).mysql ∧
    (c.preRpcOptions file env).postgres =
      (Options.load_layered_options file "ENGRAM_" env).postgres ∧
    (c.preRpcOptions file env).user_provider =
      (Options.load_layered_options file "ENGRAM_" env).user_provider ∧
    (c.preRpcOptions file env).wal =
      (Options.load_layered_options file "ENGRAM_" env).wal ∧
    (c.preRpcOptions file env).storage =
      (Options.load_layered_options file "ENGRAM_" env).storage := by
  cases hh : c.http_addr <;> simp [Standalone.preRpcOptions, hh]

/-- Every successful `mergedOptions` result is the post-RPC command-line
overrides applied to the pre-RPC options with some gRPC section. -/
theorem mergedOptions_ok_shape (c : Standalone)
    (file : Option StandaloneOverlay) (env : StandaloneOverlay)
    (opts : StandaloneOptions)
    (h : c.mergedOptions file env = Except.ok opts) :
    ∃ g : GrpcOptions,
      opts = c.applyCliRest
        (TlsOption.new c.tls_mode c.tls_cert_path c.tls_key_path)
        { c.preRpcOptions file env with grpc := g } := by
  unfold Standalone.mergedOptions at h
  cases hr : c.rpc_addr with
  | none =>
    simp only [hr, Except.ok.injEq] at h
    exact ⟨(c.preRpcOptions file env).grpc, h.symm⟩
  | some addr =>
    simp only [hr] at h
    by_cases hc : addr = DatanodeOptions.default.rpc_addr
    · simp [hc] at h
    · simp only [hc, if_false, Except.ok.injEq] at h
      exact ⟨{ (c.preRpcOptions file env).grpc with addr := addr }, h.symm⟩

/-- Every successful `mergedOptions` result has standalone mode. -/
theorem mergedOptions_mode (c : Standalone) (file : Option StandaloneOverlay)
    (env : StandaloneOverlay) (opts : StandaloneOptions)
    (h : c.mergedOptions file env = Except.ok opts) :
    opts.mode = Mode.standalone := by
  obtain ⟨g, rfl⟩ := mergedOptions_ok_shape c file env opts h
  have hframe := (applyCliRest_frame c
    (TlsOption.new c.tls_mode c.tls_cert_path c.tls_key_path)
    { c.preRpcOptions file env with grpc := g }).1
  have hmode := (preRpcOptions_fields c file env).1
  rw [hframe]
  exact hmode

/-! ### Claim theorems for the configuration resolver -/

/-- C2: when the frontend RPC flag equals the datanode's reserved default RPC
address, `load_options` fails with the address-conflict (`IllegalConfig`)
error, the message contains both the conflicting frontend address and the
reserved datanode address (they are the same string), no `MixOptions` bundle
is produced, and the orchestrator never runs (its stage trace is empty). -/
theorem load_options_rpc_conflict (c : Standalone)
    (file : Option StandaloneOverlay) (env : StandaloneOverlay) (addr : String)
    (h : c.rpc_addr = some addr)
    (hconf : addr = DatanodeOptions.default.rpc_addr) :
    Standalone.load_options c file env =
      Except.error (CmdError.illegalConfig
        (rpcConflictMsg DatanodeOptions.default.rpc_addr)) ∧
    (∃ p q, rpcConflictMsg DatanodeOptions.default.rpc_addr =
      p ++ addr ++ q) ∧
    (∃ p q, rpcConflictMsg DatanodeOptions.default.rpc_addr =
      p ++ DatanodeOptions.default.rpc_addr ++ q) ∧
    (∀ o : Options, Standalone.load_options c file env ≠ Except.ok o) ∧
    (∀ stages : StageEnv, Commands.executeStandalone c file env stages =
      ([], some (CmdError.illegalConfig
        (rpcConflictMsg DatanodeOptions.default.rpc_addr)))) := by
  have hm : c.mergedOptions file env =
      Except.error (CmdError.illegalConfig
        (rpcConflictMsg DatanodeOptions.default.rpc_addr)) := by
    simp [Standalone.mergedOptions, h, hconf]
  have hl : Standalone.load_options c file env =
      Except.error (CmdError.illegalConfig
        (rpcConflictMsg DatanodeOptions.default.rpc_addr)) := by
    unfold Standalone.load_options
    rw [hm]
    rfl
  refine ⟨hl, ?_, ?_, ?_, ?_⟩
  · exact ⟨"gRPC listen address conflicts with datanode reserved gRPC addr: ",
      "", by rw [hconf]; rfl⟩
  · exact ⟨"gRPC listen address conflicts with datanode reserved gRPC addr: ",
      "", rfl⟩
  · intro o ho
    rw [hl] at ho
    exact Except.noConfusion ho
  · intro stages
    simp [Commands.executeStandalone, hl]

/-- Witness for C2: the concrete flag `--rpc-addr 127.0.0.1:3001` (the
datanode's reserved default) makes `load_options` fail with the
address-conflict error. -/
theorem load_options_rpc_conflict_witness :
    Standalone.load_options { rpc_addr := some "127.0.0.1:3001" } none {} =
      Except.error (CmdError.illegalConfig
        (rpcConflictMsg DatanodeOptions.default.rpc_addr)) :=
  (load_options_rpc_conflict { rpc_addr := some "127.0.0.1:3001" } none {}
    "127.0.0.1:3001" rfl rfl).1

/-- C4 (failing input): the `--user-provider` command-line flag is parsed by
the `Standalone` clap struct but never applied by `load_options`: with no
config file and no environment overlay, a run with the flag set still
resolves `user_provider` to the built-in default `none` rather than to the
flag's value. -/
theorem user_provider_flag_dropped :
    ({ user_provider := some "ldap_user_provider" } : Standalone).user_provider
      = some "ldap_user_provider" ∧
    ({ user_provider := some "ldap_user_provider" } : Standalone).mergedOptions
      none {} = Except.ok StandaloneOptions.default ∧
    StandaloneOptions.default.user_provider = none :=
  ⟨rfl, rfl, rfl⟩

/-- C10: `StandaloneOptions::datanode_options` carries over exactly the WAL
and storage sections, pins `node_id` to `Some(0)`, and leaves every other
datanode field — including the RPC address — at the datanode default, for
every input configuration. -/
theorem datanode_options_projection (s : StandaloneOptions) :
    s.datanode_options.node_id = some 0 ∧
    s.datanode_options.wal = s.wal ∧
    s.datanode_options.storage = s.storage ∧
    s.datanode_options.rpc_addr = DatanodeOptions.default.rpc_addr ∧
    s.datanode_options.misc = DatanodeOptions.default.misc :=
  ⟨rfl, rfl, rfl, rfl, rfl⟩

/-- C5 counterexample: with TLS settings supplied on the command line but
neither `--mysql-addr` nor `--postgres-addr`, the resolver succeeds and both
wire-protocol listeners keep the default TLS posture (disabled) instead of
receiving the resolved TLS option (require). -/
theorem tls_not_applied_without_addr_flag :
    (TlsOption.new (some TlsMode.require) (some "/tls/cert.pem")
      (some "/tls/key.pem")).mode = TlsMode.require ∧
    ({ tls_mode := some TlsMode.require,
       tls_cert_path := some "/tls/cert.pem",
       tls_key_path := some "/tls/key.pem" } : Standalone).mergedOptions
      none {} = Except.ok StandaloneOptions.default ∧
    StandaloneOptions.default.mysql.tls.mode = TlsMode.disable ∧
    StandaloneOptions.default.postgres.tls.mode = TlsMode.disable ∧
    TlsMode.disable ≠ TlsMode.require := by
  refine ⟨rfl, rfl, rfl, rfl, ?_⟩
  decide

/-- C5 (amended): the command-line TLS settings are applied to the MySQL-wire
listener exactly when `--mysql-addr` is also given, and to the Postgres-wire
listener exactly when `--postgres-addr` is also given; a wire listener whose
address flag is absent keeps the TLS posture of the layered (file/env)
configuration. -/
theorem tls_applied_with_addr_flag (c : Standalone)
    (file : Option StandaloneOverlay) (env : StandaloneOverlay)
    (opts : StandaloneOptions)
    (h : c.mergedOptions file env = Except.ok opts) :
    (∀ a, c.mysql_addr = some a →
      opts.mysql = { addr := a,
                     tls := TlsOption.new c.tls_mode c.tls_cert_path
                              c.tls_key_path }) ∧
    (c.mysql_addr = none →
      opts.mysql = (Options.load_layered_options file "ENGRAM_" env).mysql) ∧
    (∀ a, c.postgres_addr = some a →
      opts.postgres = { addr := a,
                        tls := TlsOption.new c.tls_mode c.tls_cert_path
                                 c.tls_key_path }) ∧
    (c.postgres_addr = none →
      opts.postgres =
        (Options.load_layered_options file "ENGRAM_" env).postgres) := by
  obtain ⟨g, rfl⟩ := mergedOptions_ok_shape c file env opts h
  have hmys := applyCliRest_mysql c
    (TlsOption.new c.tls_mode c.tls_cert_path c.tls_key_path)
    { c.preRpcOptions file env with grpc := g }
  have hpg := applyCliRest_postgres c
    (TlsOption.new c.tls_mode c.tls_cert_path c.tls_key_path)
    { c.preRpcOptions file env with grpc := g }
  have hbm : ({ c.preRpcOptions file env with grpc := g } :
      StandaloneOptions).mysql =
      (Options.load_layered_options file "ENGRAM_" env).mysql :=
    (preRpcOptions_fields c file env).2.1
  have hbp : ({ c.preRpcOptions file env with grpc := g } :
      StandaloneOptions).postgres =
      (Options.load_layered_options file "ENGRAM_" env).postgres :=
    (preRpcOptions_fields c file env).2.2.1
  refine ⟨?_, ?_, ?_, ?_⟩
  · intro a ha
    rw [hmys, ha]
  · intro ha
    rw [hmys, ha]
    exact hbm
  · intro a ha
    rw [hpg, ha]
  · intro ha
    rw [hpg, ha]
    exact hbp

/-- The command line of the C5 witness: a MySQL address flag together with
TLS settings. -/
def tlsWitnessCli : Standalone :=
  { mysql_addr := some "10.0.0.1:4444", tls_mode := some TlsMode.require }

/-- The merged options the C5 witness command line resolves to. -/
def tlsWitnessMerged : StandaloneOptions :=
  { StandaloneOptions.default with
      mysql := { addr := "10.0.0.1:4444",
                 tls := TlsOption.new (some TlsMode.require) none none } }

/-- Witness for the amended C5: with `--mysql-addr` present the resolved
MySQL listener options carry the command-line TLS settings. -/
theorem tls_applied_with_addr_flag_witness :
    tlsWitnessMerged.mysql =
      { addr := "10.0.0.1:4444",
        tls := TlsOption.new (some TlsMode.require) none none } :=
  (tls_applied_with_addr_flag tlsWitnessCli none {} tlsWitnessMerged rfl).1
    "10.0.0.1:4444" rfl

/-- C8: resolving the configuration with no config file, no environment
overlay and no command-line overrides succeeds; the layered configuration is
exactly the documented default `StandaloneOptions`, whose every field is set:
mode Standalone, telemetry enabled, the default options of every listener,
default WAL, storage, metadata-store, procedure and logging sections, no user
provider, and the region-engine list holding exactly the default Mito engine
followed by the default file engine. -/
theorem default_completeness :
    Options.load_layered_options none "ENGRAM_" {} =
      StandaloneOptions.default ∧
    Standalone.load_options {} none {} =
      Except.ok (Options.standalone StandaloneOptions.default.toMixOptions) ∧
    StandaloneOptions.default =
      { mode := Mode.standalone,
        enable_telemetry := true,
        http := HttpOptions.default,
        grpc := GrpcOptions.default,
        mysql := MysqlOptions.default,
        postgres := PostgresOptions.default,
        opentsdb := OpentsdbOptions.default,
        influxdb := InfluxdbOptions.default,
        prom_store := PromStoreOptions.default,
        wal := WalConfig.default,
        storage := StorageConfig.default,
        metadata_store := KvBackendConfig.default,
        procedure := ProcedureConfig.default,
        logging := LoggingOptions.default,
        user_provider := none,
        region_engine := [RegionEngineConfig.mito MitoConfig.default,
                          RegionEngineConfig.file FileEngineConfig.default] } :=
  ⟨rfl, rfl, rfl⟩

/-- C9: whatever the config file and environment overlay say — including an
explicit mode — every option set successfully returned by
`Standalone::load_options` has mode Standalone: the resolver unconditionally
overwrites the mode before projecting the subsystem options. -/
theorem load_options_mode_standalone (c : Standalone)
    (file : Option StandaloneOverlay) (env : StandaloneOverlay)
    (m : MixOptions)
    (h : Standalone.load_options c file env =
      Except.ok (Options.standalone m)) :
    m.frontend.mode = Mode.standalone := by
  unfold Standalone.load_options at h
  cases hm : c.mergedOptions file env with
  | error e =>
    rw [hm] at h
    exact Except.noConfusion h
  | ok opts =>
    rw [hm] at h
    have hmix : opts.toMixOptions = m := by
      have h1 : Options.standalone opts.toMixOptions =
          Options.standalone m := by
        injection h
      injection h1
    rw [← hmix]
    show opts.mode = Mode.standalone
    exact mergedOptions_mode c file env opts hm

/-- Witness for C9: an environment overlay that sets mode Distributed still
resolves to standalone mode. -/
theorem load_options_mode_standalone_witness :
    StandaloneOptions.default.toMixOptions.frontend.mode = Mode.standalone :=
  load_options_mode_standalone {} none { mode := some Mode.distributed }
    StandaloneOptions.default.toMixOptions rfl

/-- C7: on every invocation, the installed hook first emits exactly one
structured diagnostic record carrying the panic message and the captured
backtrace — with the source file, line and column when a location is
available, and without the location fields otherwise — then increments the
`panic_counter` fatal-error counter, and only then invokes the
previously-installed handler with the same panic info. -/
theorem panic_hook_invocation (info : PanicInfo) (backtrace : String) :
    (set_panic_hook initialHookState).installed info backtrace =
      (match info.location with
       | some loc => [HookEvent.logWithLocation info.message backtrace
           loc.file loc.line loc.column]
       | none => [HookEvent.logNoLocation info.message backtrace]) ++
      [HookEvent.counterIncrement "panic_counter",
       HookEvent.defaultHandlerRun info] ∧
    ((set_panic_hook initialHookState).installed info backtrace).countP
      (fun e => e.isLogRecord) = 1 ∧
    ((set_panic_hook initialHookState).installed info backtrace).count
      (HookEvent.defaultHandlerRun info) = 1 := by
  cases hl : info.location with
  | none =>
    refine ⟨?_, ?_, ?_⟩ <;>
      simp [set_panic_hook, initialHookState, hookDiagnostics, hl,
        List.countP_cons, List.count_cons, HookEvent.isLogRecord]
  | some loc =>
    refine ⟨?_, ?_, ?_⟩ <;>
      simp [set_panic_hook, initialHookState, hookDiagnostics, hl,
        List.countP_cons, List.count_cons, HookEvent.isLogRecord]

/-- C6 counterexample: calling `set_panic_hook` twice does not leave a single
handler chain — on the next fatal event the diagnostics (structured record
and counter increment) are recorded twice, not once. -/
theorem set_panic_hook_double_install_counterexample :
    (set_panic_hook (set_panic_hook initialHookState)).installed
        { message := "boom", location := none } "trace" =
      [HookEvent.logNoLocation "boom" "trace",
       HookEvent.counterIncrement "panic_counter",
       HookEvent.logNoLocation "boom" "trace",
       HookEvent.counterIncrement "panic_counter",
       HookEvent.defaultHandlerRun { message := "boom", location := none }] ∧
    ¬ (((set_panic_hook (set_panic_hook initialHookState)).installed
          { message := "boom", location := none } "trace").countP
        (fun e => e.isLogRecord) = 1) := by
  constructor
  · rfl
  · decide

/-- C6 (amended): `set_panic_hook` is not guarded against double install;
installing it twice nests the hook, so one fatal event still invokes the
original platform handler exactly once, but records the structured
diagnostics and increments the fatal-error counter twice. -/
theorem set_panic_hook_double_install (info : PanicInfo) (backtrace : String) :
    ((set_panic_hook (set_panic_hook initialHookState)).installed info
        backtrace).count (HookEvent.defaultHandlerRun info) = 1 ∧
    ((set_panic_hook (set_panic_hook initialHookState)).installed info
        backtrace).countP (fun e => e.isLogRecord) = 2 ∧
    ((set_panic_hook (set_panic_hook initialHookState)).installed info
        backtrace).count (HookEvent.counterIncrement "panic_counter") = 2 := by
  cases hl : info.location with
  | none =>
    refine ⟨?_, ?_, ?_⟩ <;>
      simp [set_panic_hook, initialHookState, hookDiagnostics, hl,
        List.countP_cons, List.count_cons, HookEvent.isLogRecord]
  | some loc =>
    refine ⟨?_, ?_, ?_⟩ <;>
      simp [set_panic_hook, initialHookState, hookDiagnostics, hl,
        List.countP_cons, List.count_cons, HookEvent.isLogRecord]

end Engram
